import Mathlib

/-
Verification of the CALEX backend (`app.py`), a Flask HTTP service that
persists research projects, goals, insights and uploaded-file metadata as
four JSON documents on disk.  Each request handler loads the relevant JSON
store (a dictionary keyed by generated string identifiers), mutates it and
writes it back.

The embedding below models:
  * JSON values (`JVal`) — strings, numbers (as rationals), booleans, null,
    and lists of strings (the only array shape appearing in the stored
    records, namely insight tags);
  * Python dictionaries preserving insertion order, as association lists
    (`Dict`), with the exact CPython semantics of `d[k] = v` (in-place
    update of an existing key, else append), `del d[k]`, `d.update(other)`,
    `d.get(k)` and `k in d`;
  * each relevant request handler as a pure function from the request data
    and the current store state to an HTTP status and the new state.
    Non-determinism of `uuid.uuid4()` and `datetime.now().isoformat()` is
    resolved by passing the generated identifiers and the timestamp as
    explicit arguments; freshness of generated UUIDs is a hypothesis.
    Handlers whose body can raise inside the blanket `try`/`except`
    (for example a subscript on a missing key, or `+ 25` on a non-numeric
    stored value) return `Status.serverError500` on those paths.
-/

namespace Calex

/-- A JSON value as it appears in the four stores of the backend. -/
inductive JVal where
  | str : String → JVal
  | num : ℚ → JVal
  | bool : Bool → JVal
  | null : JVal
  | arrStr : List String → JVal
deriving DecidableEq

/-- Python truthiness of a JSON value (`if x:`). -/
def JVal.truthy : JVal → Bool
  | .str s => !(s == "")
  | .num q => !(q == 0)
  | .bool b => b
  | .null => false
  | .arrStr l => !(l == [])

/-- A Python dictionary with `String` keys, as an insertion-ordered
association list. -/
abbrev Dict (α : Type) : Type := List (String × α)

/-- A record (one stored entity): a dictionary of JSON values. -/
abbrev Rec : Type := Dict JVal

/-- A store: one of the four JSON files, a dictionary id → record. -/
abbrev Store : Type := Dict Rec

/-- `d[k]` / `d.get(k)`: first entry with the given key. -/
def dlookup {α : Type} (k : String) : Dict α → Option α
  | [] => none
  | (k2, v) :: d => if k2 = k then some v else dlookup k d

/-- `d[k] = v`: replace the value at an existing key in place, else append. -/
def dinsert {α : Type} (k : String) (v : α) : Dict α → Dict α
  | [] => [(k, v)]
  | (k2, v2) :: d => if k2 = k then (k, v) :: d else (k2, v2) :: dinsert k v d

/-- `del d[k]`: remove the first entry with the given key. -/
def derase {α : Type} (k : String) : Dict α → Dict α
  | [] => []
  | (k2, v2) :: d => if k2 = k then d else (k2, v2) :: derase k d

/-- `d.update(data)`: assign every entry of `data`, in order, into `d`. -/
def dupdate {α : Type} (d data : Dict α) : Dict α :=
  data.foldl (fun acc e => dinsert e.1 e.2 acc) d

/-- The keys of a dictionary, in order. -/
def keys {α : Type} (d : Dict α) : List String := d.map Prod.fst

/-- HTTP statuses returned by the handlers. -/
inductive Status where
  | ok200
  | created201
  | badRequest400
  | notFound404
  | serverError500
deriving DecidableEq

/-- `load_json_data(filename)`.  The file system and the JSON parse are
modelled by the argument: `none` means the file does not exist,
`some none` means it exists but reading or parsing raises (the handler
logs and falls through), `some (some d)` means it parses to the mapping
`d`.  The function is total: no failure propagates to the caller. -/
def load_json_data (file : Option (Option Store)) : Store :=
  match file with
  | some (some d) => d
  | some none => []
  | none => []

/-- The fixed extension allow-list `ALLOWED_EXTENSIONS`. -/
def ALLOWED_EXTENSIONS : List String :=
  ["txt", "pdf", "png", "jpg", "jpeg", "gif", "doc", "docx", "csv", "json",
   "xml", "xls", "xlsx", "md"]

/-- ASCII lower-casing, modelling `str.lower()`. -/
def lowerStr (s : String) : String := String.mk (s.data.map Char.toLower)

/-- `filename.rsplit('.', 1)[1]` for a string containing a dot: the suffix
after the last dot. -/
def extAfterLastDot (s : String) : String :=
  String.mk ((s.data.reverse.takeWhile (fun c => !(c == '.'))).reverse)

/-- `allowed_file(filename)`: the string contains a dot and the lower-cased
suffix after the last dot is in the allow-list. -/
def allowed_file (filename : String) : Bool :=
  filename.data.contains '.' &&
    ALLOWED_EXTENSIONS.contains (lowerStr (extAfterLastDot filename))

/-- `str.strip()`: remove leading and trailing whitespace (modelled for
ASCII whitespace characters). -/
def pyStrip (s : String) : String :=
  String.mk (((s.data.dropWhile Char.isWhitespace).reverse.dropWhile
    Char.isWhitespace).reverse)

/-- `data.get` with key `k` and default empty string, followed by use of
the result as a string:
a missing key yields `""`; a non-string value raises `AttributeError`
at `.strip()`, modelled as `none` (the blanket handler turns it into a
500 response). -/
def getStrD (k : String) (data : Rec) : Option String :=
  match dlookup k data with
  | none => some ""
  | some (JVal.str s) => some s
  | some _ => none

/-- The project record literal built by `create_project`.
`datetime.now()` is called twice in the source for `created_at` and
`updated_at`; both are modelled by the single timestamp `now`. -/
def projectRec (pid name description now : String) : Rec :=
  [("id", JVal.str pid), ("name", JVal.str name),
   ("description", JVal.str description), ("status", JVal.str "setup"),
   ("created_at", JVal.str now), ("updated_at", JVal.str now),
   ("documents_count", JVal.num 0), ("goals_count", JVal.num 0),
   ("insights_count", JVal.num 0), ("research_progress", JVal.num 0)]

/-- `POST /api/projects` (`create_project`).  `pid` is the generated
`uuid4`; `now` the timestamp.  Returns the HTTP status and the projects
store after the request. -/
def create_project (now pid : String) (data : Rec) (projects : Store) :
    Status × Store :=
  match getStrD "name" data, getStrD "description" data with
  | some n, some de =>
    let name := pyStrip n
    let description := pyStrip de
    if name = "" then (Status.badRequest400, projects)
    else (Status.created201, dinsert pid (projectRec pid name description now) projects)
  | _, _ => (Status.serverError500, projects)

/-- `POST /api/projects/<project_id>/start-research` (`start_research`).
The log line after the save reads the name field of the project; a missing name raises
`KeyError` after the store was already written, producing a 500. -/
def start_research (now pid : String) (projects : Store) : Status × Store :=
  match dlookup pid projects with
  | none => (Status.notFound404, projects)
  | some proj =>
    let proj2 := dinsert "research_progress" (JVal.num 0)
      (dinsert "updated_at" (JVal.str now)
        (dinsert "status" (JVal.str "researching") proj))
    ((if (dlookup "name" proj2).isSome then Status.ok200 else Status.serverError500),
     dinsert pid proj2 projects)

/-- The list-comprehension count over a store:
the number of records in a store whose `project_id` equals `pid`
(a missing `project_id` reads as `None`). -/
def countFor (pid : JVal) (store : Store) : Nat :=
  ((store.map Prod.snd).filter
    (fun f => ((dlookup "project_id" f).getD JVal.null) == pid)).length

/-- The in-place enrichment `get_projects` applies to one project record:
derived counts and a defaulted `research_progress`.  Subscripting id on a
record without an id raises `KeyError`, modelled as `none`. -/
def enrich (goals insights files : Store) (p : Rec) : Option Rec :=
  match dlookup "id" p with
  | none => none
  | some pid =>
    let p1 := dinsert "documents_count" (JVal.num (countFor pid files)) p
    let p2 := dinsert "goals_count" (JVal.num (countFor pid goals)) p1
    let p3 := dinsert "insights_count" (JVal.num (countFor pid insights)) p2
    some (dinsert "research_progress"
      ((dlookup "research_progress" p3).getD (JVal.num 0)) p3)

/-- Map a fallible function over a list, failing if any element fails
(the loop in `get_projects` raises out of the blanket `try` on the first
bad record). -/
def optionMap {α β : Type} (f : α → Option β) : List α → Option (List β)
  | [] => some []
  | a :: l =>
    match f a, optionMap f l with
    | some b, some bs => some (b :: bs)
    | _, _ => none

/-- `GET /api/projects` (`get_projects`): the returned project list, or
`none` when the handler answers 500 (some project record lacks an id). -/
def get_projects (projects goals insights files : Store) : Option (List Rec) :=
  optionMap (enrich goals insights files) (projects.map Prod.snd)

/-- The three fixed `sample_insights` records of `generate_insights`,
keyed by their generated ids as the storing loop
stores them. -/
def sample_insights (pid id1 id2 id3 now : String) : List (String × Rec) :=
  [(id1,
    [("id", JVal.str id1),
     ("content", JVal.str "Based on the uploaded documents, there appears to be a strong correlation between market trends and consumer behavior patterns."),
     ("insight_type", JVal.str "finding"),
     ("confidence_score", JVal.num (85/100)),
     ("relevance_score", JVal.num (92/100)),
     ("tags", JVal.arrStr ["market analysis", "consumer behavior", "trends"]),
     ("project_id", JVal.str pid),
     ("created_at", JVal.str now)]),
   (id2,
    [("id", JVal.str id2),
     ("content", JVal.str "The data suggests implementing a phased approach to the proposed strategy would minimize risk while maximizing potential returns."),
     ("insight_type", JVal.str "recommendation"),
     ("confidence_score", JVal.num (78/100)),
     ("relevance_score", JVal.num (88/100)),
     ("tags", JVal.arrStr ["strategy", "risk management", "implementation"]),
     ("project_id", JVal.str pid),
     ("created_at", JVal.str now)]),
   (id3,
    [("id", JVal.str id3),
     ("content", JVal.str "Further investigation is needed to understand the underlying factors driving these observed patterns."),
     ("insight_type", JVal.str "question"),
     ("confidence_score", JVal.num (65/100)),
     ("relevance_score", JVal.num (75/100)),
     ("tags", JVal.arrStr ["investigation", "patterns", "analysis"]),
     ("project_id", JVal.str pid),
     ("created_at", JVal.str now)])]

/-- The research_progress of a project record as read (with default 0)
by the `+ 25` update:
a missing key defaults to `0`; Python booleans are integers; any other
non-numeric value raises `TypeError` (`none`, turned into a 500). -/
def progressVal (proj : Rec) : Option ℚ :=
  match dlookup "research_progress" proj with
  | none => some 0
  | some (JVal.num q) => some q
  | some (JVal.bool b) => some (if b then 1 else 0)
  | some _ => none

/-- `POST /api/insights/project/<project_id>/generate` (`generate_insights`).
Returns the status, the insights store and the projects store after the
request.  The insights are written before the progress update, so a
`TypeError` in the update leaves the new insights stored. -/
def generate_insights (pid id1 id2 id3 now : String) (insights projects : Store) :
    Status × Store × Store :=
  let insights2 := (sample_insights pid id1 id2 id3 now).foldl
    (fun acc e => dinsert e.1 e.2 acc) insights
  match dlookup pid projects with
  | none => (Status.ok200, insights2, projects)
  | some proj =>
    match progressVal proj with
    | none => (Status.serverError500, insights2, projects)
    | some p =>
      let proj2 := dinsert "updated_at" (JVal.str now)
        (dinsert "research_progress" (JVal.num (min 100 (p + 25))) proj)
      (Status.ok200, insights2, dinsert pid proj2 projects)

/-- `PUT /api/goals/<goal_id>` (`update_goal`): shallow merge of the
request body into the stored record, then `updated_at` is refreshed.
The log line after the save reads the title of the goal; a missing title gives
a 500 with the store already written. -/
def update_goal (now gid : String) (data : Rec) (goals : Store) :
    Status × Store :=
  match dlookup gid goals with
  | none => (Status.notFound404, goals)
  | some goal =>
    let goal2 := dinsert "updated_at" (JVal.str now) (dupdate goal data)
    ((if (dlookup "title" goal2).isSome then Status.ok200 else Status.serverError500),
     dinsert gid goal2 goals)

/-- `DELETE /api/goals/<goal_id>` (`delete_goal`).  The log line after the
save reads the title of the removed record. -/
def delete_goal (gid : String) (goals : Store) : Status × Store :=
  match dlookup gid goals with
  | none => (Status.notFound404, goals)
  | some goal =>
    ((if (dlookup "title" goal).isSome then Status.ok200 else Status.serverError500),
     derase gid goals)

/-- The state the file endpoints act on: the metadata store (`files.json`)
and the set of physical paths present on disk. -/
structure FilesSt where
  files : Store
  disk : List String
deriving DecidableEq

/-- `GET /api/files` (`list_files`): all metadata records. -/
def list_files (files : Store) : List Rec := files.map Prod.snd

/-- `DELETE /api/files/<file_id>` (`delete_file`).  The physical file is
removed only when the recorded path is truthy and present on disk.  A
truthy non-string path makes `os.path.exists` raise, giving a 500 before
any mutation; the log line after the save reads the filename field. -/
def delete_file (fid : String) (st : FilesSt) : Status × FilesSt :=
  match dlookup fid st.files with
  | none => (Status.notFound404, st)
  | some fd =>
    match (dlookup "path" fd).getD JVal.null with
    | JVal.str p =>
      let disk2 := if p ≠ "" ∧ p ∈ st.disk then st.disk.filter (fun q => !(q == p))
        else st.disk
      ((if (dlookup "filename" fd).isSome then Status.ok200 else Status.serverError500),
       ⟨derase fid st.files, disk2⟩)
    | v =>
      if v.truthy then (Status.serverError500, st)
      else
        ((if (dlookup "filename" fd).isSome then Status.ok200 else Status.serverError500),
         ⟨derase fid st.files, st.disk⟩)

/-- Python falsiness of the project_id form field:
`None` or the empty string. -/
def pyFalsyOptStr (o : Option String) : Bool :=
  match o with
  | none => true
  | some s => s == ""

/-- `file.content_type` with the f-string fallback application/<extension>:
the request's
content type when truthy, else the fallback built from the extension. -/
def contentTypeOf (ctype : Option String) (ext : String) : String :=
  match ctype with
  | some c => if c = "" then "application/" ++ ext else c
  | none => "application/" ++ ext

/-- The `file_data` metadata record built by `upload_file`:
sanitized `filename`, unsanitized `original_name`, the size of the saved
content, content type, the submitted `project_id`, status "completed" and
the generated-id-prefixed on-disk path. -/
def fileRecOf (sanitize : String → String) (fileId now : String) (fsize : Nat)
    (ctype : Option String) (fname : String) (projectId : Option String) : Rec :=
  [("id", JVal.str fileId), ("filename", JVal.str (sanitize fname)),
   ("original_name", JVal.str fname), ("size", JVal.num (fsize : ℚ)),
   ("type", JVal.str (contentTypeOf ctype (lowerStr (extAfterLastDot (sanitize fname))))),
   ("project_id", JVal.str (projectId.getD "")),
   ("upload_date", JVal.str now), ("status", JVal.str "completed"),
   ("path", JVal.str ("data/" ++ fileId ++ "_" ++ sanitize fname))]

/-- `POST /api/upload` (`upload_file`).  `sanitize` models werkzeug's
`secure_filename` (library code outside this repository), `fileId` the
generated uuid, `fsize` the size of the saved content, `ctype` the
request's content type, `hasFilePart` whether the file part is present,
`fname` the submitted filename, `projectId` the `project_id` form field.
`file_extension` is taken from the sanitized name; if sanitizing removed
every dot the index `[1]` raises, a 500 before any state change. -/
def upload_file (sanitize : String → String) (fileId now : String)
    (fsize : Nat) (ctype : Option String) (hasFilePart : Bool)
    (fname : String) (projectId : Option String) (st : FilesSt) :
    Status × FilesSt :=
  if !hasFilePart then (Status.badRequest400, st)
  else if pyFalsyOptStr projectId then (Status.badRequest400, st)
  else if fname = "" then (Status.badRequest400, st)
  else if !(allowed_file fname) then (Status.badRequest400, st)
  else
    if (sanitize fname).data.contains '.' then
      (Status.ok200,
       ⟨dinsert fileId (fileRecOf sanitize fileId now fsize ctype fname projectId) st.files,
        ("data/" ++ fileId ++ "_" ++ sanitize fname) :: st.disk⟩)
    else (Status.serverError500, st)

/-- Concrete file-endpoint state used to witness the delete and upload
theorems: one stored metadata record and its physical file. -/
def sampleFilesSt : FilesSt :=
  ⟨[("f1", [("filename", JVal.str "a.txt"), ("path", JVal.str "data/f1_a.txt")])],
   ["data/f1_a.txt"]⟩

/-- Concrete goals store used to witness the delete theorems. -/
def sampleGoals : Store := [("g1", [("title", JVal.str "T")])]

theorem dlookup_nil {α : Type} (k : String) : dlookup (α := α) k [] = none := rfl

theorem dlookup_cons {α : Type} (k k2 : String) (v : α) (d : Dict α) :
    dlookup k ((k2, v) :: d) = if k2 = k then some v else dlookup k d := rfl

theorem dlookup_dinsert {α : Type} (k k2 : String) (v : α) (d : Dict α) :
    dlookup k (dinsert k2 v d) = if k2 = k then some v else dlookup k d := by
  induction d with
  | nil =>
    by_cases h : k2 = k <;> simp [dinsert, dlookup, h]
  | cons e d ih =>
    obtain ⟨k3, v3⟩ := e
    by_cases h3 : k3 = k2
    · subst h3
      by_cases h : k3 = k <;> simp [dinsert, dlookup, h]
    · by_cases h : k3 = k
      · subst h
        have : ¬ k2 = k3 := fun h => h3 h.symm
        simp [dinsert, dlookup, h3, this]
      · simp [dinsert, dlookup, h3, h, ih]

theorem dlookup_append {α : Type} (k : String) (d e : Dict α) :
    dlookup k (d ++ e) = (dlookup k d).or (dlookup k e) := by
  induction d with
  | nil => simp [dlookup]
  | cons p d ih =>
    obtain ⟨k2, v⟩ := p
    by_cases h : k2 = k <;> simp [dlookup, h, ih, List.cons_append]

theorem dinsert_of_not_mem {α : Type} (k : String) (v : α) (d : Dict α)
    (h : dlookup k d = none) : dinsert k v d = d ++ [(k, v)] := by
  induction d with
  | nil => rfl
  | cons p d ih =>
    obtain ⟨k2, v2⟩ := p
    by_cases h2 : k2 = k
    · simp [dlookup, h2] at h
    · simp [dlookup, h2] at h
      simp [dinsert, h2, ih h, List.cons_append]

theorem dlookup_eq_none {α : Type} (k : String) (d : Dict α) :
    dlookup k d = none ↔ k ∉ keys d := by
  induction d with
  | nil => simp [dlookup, keys]
  | cons p d ih =>
    obtain ⟨k2, v⟩ := p
    by_cases h : k2 = k
    · subst h
      simp [dlookup, keys]
    · have h2 : ¬ k = k2 := fun he => h he.symm
      simp [dlookup, keys, h, h2, ih]

theorem dlookup_derase_self {α : Type} (k : String) (d : Dict α)
    (hnd : (keys d).Nodup) : dlookup k (derase k d) = none := by
  induction d with
  | nil => rfl
  | cons p d ih =>
    obtain ⟨k2, v⟩ := p
    simp [keys] at hnd
    by_cases h : k2 = k
    · subst h
      simp [derase]
      exact (dlookup_eq_none k2 d).mpr (by simpa [keys] using hnd.1)
    · simp [derase, h, dlookup, ih hnd.2]

theorem dlookup_derase_ne {α : Type} (k k2 : String) (d : Dict α)
    (h : k ≠ k2) : dlookup k (derase k2 d) = dlookup k d := by
  induction d with
  | nil => rfl
  | cons p d ih =>
    obtain ⟨k3, v⟩ := p
    by_cases h3 : k3 = k2
    · subst h3
      have h4 : ¬ k3 = k := fun he => h (he.symm.trans rfl)
      simp [derase, dlookup, h4]
    · by_cases hk : k3 = k <;> simp [derase, dlookup, h3, hk, h, ih]

theorem dupdate_cons {α : Type} (d : Dict α) (e : String × α) (data : Dict α) :
    dupdate d (e :: data) = dupdate (dinsert e.1 e.2 d) data := rfl

theorem dlookup_dupdate {α : Type} (k : String) (d data : Dict α)
    (hnd : (keys data).Nodup) :
    dlookup k (dupdate d data) = (dlookup k data).or (dlookup k d) := by
  induction data generalizing d with
  | nil => simp [dupdate, dlookup]
  | cons e data ih =>
    obtain ⟨k2, v⟩ := e
    simp [keys] at hnd
    rw [dupdate_cons, ih _ hnd.2]
    by_cases h : k2 = k
    · subst h
      have : dlookup k2 data = none :=
        (dlookup_eq_none k2 data).mpr (by simpa [keys] using hnd.1)
      simp [dlookup, this, dlookup_dinsert]
    · simp [dlookup, h, dlookup_dinsert]

/-- C6: `load_json_data(file)` returns the parsed id→record mapping when
the file exists and parses, and the empty mapping when the file is absent
or unparsable; being a total function, no failure propagates. -/
theorem load_json_data_spec (d : Store) :
    load_json_data (some (some d)) = d ∧
    load_json_data (some none) = [] ∧
    load_json_data none = [] :=
  ⟨rfl, rfl, rfl⟩

/-- C3: `POST /api/projects` with an empty, all-whitespace or absent name
returns 400 and leaves the projects store unchanged; with a non-empty
name it returns 201 and appends a project record with the fresh id, the
(stripped) name, status "setup", zero counts and zero research progress. -/
theorem create_project_spec (now pid : String) (data : Rec) (projects : Store)
    (n de : String)
    (hn : getStrD "name" data = some n)
    (hd : getStrD "description" data = some de)
    (hfresh : dlookup pid projects = none) :
    (pyStrip n = "" →
      create_project now pid data projects = (Status.badRequest400, projects)) ∧
    (pyStrip n ≠ "" →
      create_project now pid data projects =
        (Status.created201,
         projects ++ [(pid, projectRec pid (pyStrip n) (pyStrip de) now)]) ∧
      dlookup "id" (projectRec pid (pyStrip n) (pyStrip de) now) = some (JVal.str pid) ∧
      dlookup "name" (projectRec pid (pyStrip n) (pyStrip de) now) =
        some (JVal.str (pyStrip n)) ∧
      dlookup "status" (projectRec pid (pyStrip n) (pyStrip de) now) =
        some (JVal.str "setup") ∧
      dlookup "documents_count" (projectRec pid (pyStrip n) (pyStrip de) now) =
        some (JVal.num 0) ∧
      dlookup "goals_count" (projectRec pid (pyStrip n) (pyStrip de) now) =
        some (JVal.num 0) ∧
      dlookup "insights_count" (projectRec pid (pyStrip n) (pyStrip de) now) =
        some (JVal.num 0) ∧
      dlookup "research_progress" (projectRec pid (pyStrip n) (pyStrip de) now) =
        some (JVal.num 0)) := by
  constructor
  · intro h
    simp [create_project, hn, hd, h]
  · intro h
    refine ⟨?_, rfl, rfl, rfl, rfl, rfl, rfl, rfl⟩
    simp [create_project, hn, hd, h]
    rw [dinsert_of_not_mem pid _ projects hfresh]

/-- Witness for C3 at a concrete request. -/
theorem create_project_spec_witness :
    getStrD "name" [("name", JVal.str "Mars")] = some "Mars" ∧
    pyStrip "Mars" ≠ "" ∧
    create_project "t0" "p1" [("name", JVal.str "Mars")] [] =
      (Status.created201, [] ++ [("p1", projectRec "p1" (pyStrip "Mars") (pyStrip "") "t0")]) :=
  ⟨rfl, by decide,
   ((create_project_spec "t0" "p1" [("name", JVal.str "Mars")] [] "Mars" ""
      rfl rfl rfl).2 (by decide)).1⟩

/-- C8: `POST /api/projects/<id>/start-research` returns 404 and leaves the
projects store unchanged when the id is unknown; for an existing project it
sets status to "researching", resets research_progress to 0, refreshes
updated_at, and leaves every other field and every other project unchanged. -/
theorem start_research_spec (now pid : String) (projects : Store) :
    (dlookup pid projects = none →
      start_research now pid projects = (Status.notFound404, projects)) ∧
    (∀ proj, dlookup pid projects = some proj →
      ∃ proj2, (start_research now pid projects).2 = dinsert pid proj2 projects ∧
        dlookup "status" proj2 = some (JVal.str "researching") ∧
        dlookup "research_progress" proj2 = some (JVal.num 0) ∧
        dlookup "updated_at" proj2 = some (JVal.str now) ∧
        (∀ k, k ≠ "status" → k ≠ "research_progress" → k ≠ "updated_at" →
          dlookup k proj2 = dlookup k proj) ∧
        (∀ q, q ≠ pid →
          dlookup q (start_research now pid projects).2 = dlookup q projects)) := by
  constructor
  · intro h
    simp [start_research, h]
  · intro proj hp
    refine ⟨dinsert "research_progress" (JVal.num 0)
      (dinsert "updated_at" (JVal.str now)
        (dinsert "status" (JVal.str "researching") proj)), ?_, ?_, ?_, ?_, ?_, ?_⟩
    · simp [start_research, hp]
    · rw [dlookup_dinsert, if_neg (by decide), dlookup_dinsert, if_neg (by decide),
        dlookup_dinsert, if_pos rfl]
    · rw [dlookup_dinsert, if_pos rfl]
    · rw [dlookup_dinsert, if_neg (by decide), dlookup_dinsert, if_pos rfl]
    · intro k h1 h2 h3
      rw [dlookup_dinsert, if_neg (fun he => h2 he.symm),
        dlookup_dinsert, if_neg (fun he => h3 he.symm),
        dlookup_dinsert, if_neg (fun he => h1 he.symm)]
    · intro q hq
      simp [start_research, hp]
      rw [dlookup_dinsert, if_neg (fun he => hq he.symm)]

/-- C2: `PUT /api/goals/<goal_id>` on an existing goal is a shallow merge:
every caller-supplied key (any field, including id) takes the supplied
value, `updated_at` is refreshed, every other field keeps its previous
value, and every other goal is untouched. -/
theorem update_goal_spec (now gid : String) (data : Rec) (goals : Store)
    (goal : Rec) (hg : dlookup gid goals = some goal)
    (hnd : (keys data).Nodup) :
    ∃ goal2, (update_goal now gid data goals).2 = dinsert gid goal2 goals ∧
      (∀ k, dlookup k goal2 =
        if k = "updated_at" then some (JVal.str now)
        else (dlookup k data).or (dlookup k goal)) ∧
      (∀ q, q ≠ gid →
        dlookup q (update_goal now gid data goals).2 = dlookup q goals) := by
  refine ⟨dinsert "updated_at" (JVal.str now) (dupdate goal data), ?_, ?_, ?_⟩
  · simp [update_goal, hg]
  · intro k
    by_cases hk : k = "updated_at"
    · subst hk
      rw [dlookup_dinsert, if_pos rfl, if_pos rfl]
    · rw [dlookup_dinsert, if_neg (fun he => hk he.symm), if_neg hk,
        dlookup_dupdate _ _ _ hnd]
  · intro q hq
    simp [update_goal, hg]
    rw [dlookup_dinsert, if_neg (fun he => hq he.symm)]

/-- Witness for C2: updating a stored goal with a body that sets status
to done
changes exactly status and updated_at. -/
theorem update_goal_spec_witness :
    dlookup "g1"
      [("g1", [("id", JVal.str "g1"), ("title", JVal.str "Read"),
               ("status", JVal.str "active"), ("updated_at", JVal.str "t0"),
               ("progress", JVal.num 0)])] =
      some [("id", JVal.str "g1"), ("title", JVal.str "Read"),
            ("status", JVal.str "active"), ("updated_at", JVal.str "t0"),
            ("progress", JVal.num 0)] ∧
    ∃ goal2,
      (update_goal "t1" "g1" [("status", JVal.str "done")]
        [("g1", [("id", JVal.str "g1"), ("title", JVal.str "Read"),
                 ("status", JVal.str "active"), ("updated_at", JVal.str "t0"),
                 ("progress", JVal.num 0)])]).2 =
        dinsert "g1" goal2
          [("g1", [("id", JVal.str "g1"), ("title", JVal.str "Read"),
                   ("status", JVal.str "active"), ("updated_at", JVal.str "t0"),
                   ("progress", JVal.num 0)])] ∧
      (∀ k, dlookup k goal2 =
        if k = "updated_at" then some (JVal.str "t1")
        else (dlookup k [("status", JVal.str "done")]).or
          (dlookup k [("id", JVal.str "g1"), ("title", JVal.str "Read"),
                      ("status", JVal.str "active"), ("updated_at", JVal.str "t0"),
                      ("progress", JVal.num 0)])) ∧
      (∀ q, q ≠ "g1" →
        dlookup q (update_goal "t1" "g1" [("status", JVal.str "done")]
          [("g1", [("id", JVal.str "g1"), ("title", JVal.str "Read"),
                   ("status", JVal.str "active"), ("updated_at", JVal.str "t0"),
                   ("progress", JVal.num 0)])]).2 =
          dlookup q
            [("g1", [("id", JVal.str "g1"), ("title", JVal.str "Read"),
                     ("status", JVal.str "active"), ("updated_at", JVal.str "t0"),
                     ("progress", JVal.num 0)])]) :=
  ⟨rfl, update_goal_spec "t1" "g1" [("status", JVal.str "done")] _ _ rfl (by decide)⟩

/-- C7: deleting a nonexistent file or goal returns 404 and leaves the
store unchanged; deleting an existing one removes the record from the
store (so it no longer appears in listings) and, for files, removes the
physical file at the recorded path when it is present on disk. -/
theorem delete_endpoints_spec (fid gid : String) (st : FilesSt) (goals : Store) :
    (dlookup fid st.files = none → delete_file fid st = (Status.notFound404, st)) ∧
    (∀ fd p, dlookup fid st.files = some fd →
      dlookup "path" fd = some (JVal.str p) →
      (keys st.files).Nodup →
      (delete_file fid st).2.files = derase fid st.files ∧
      dlookup fid (delete_file fid st).2.files = none ∧
      (p ≠ "" → p ∈ st.disk → p ∉ (delete_file fid st).2.disk)) ∧
    (dlookup gid goals = none → delete_goal gid goals = (Status.notFound404, goals)) ∧
    (∀ g, dlookup gid goals = some g → (keys goals).Nodup →
      (delete_goal gid goals).2 = derase gid goals ∧
      dlookup gid (delete_goal gid goals).2 = none) := by
  refine ⟨?_, ?_, ?_, ?_⟩
  · intro h
    simp [delete_file, h]
  · intro fd p hf hpath hnd
    refine ⟨?_, ?_, ?_⟩
    · simp [delete_file, hf, hpath]
    · simp [delete_file, hf, hpath]
      exact dlookup_derase_self fid st.files hnd
    · intro hne hmem
      simp [delete_file, hf, hpath, hne, hmem]
  · intro h
    simp [delete_goal, h]
  · intro g hg hnd
    refine ⟨by simp [delete_goal, hg], ?_⟩
    simp [delete_goal, hg]
    exact dlookup_derase_self gid goals hnd

/-- Witness for C7 at concrete stores: a missing id gives 404 on both
endpoints; deleting the stored file removes its record and its physical
file; deleting the stored goal removes its record. -/
theorem delete_endpoints_spec_witness :
    delete_file "zz" sampleFilesSt = (Status.notFound404, sampleFilesSt) ∧
    dlookup "f1" (delete_file "f1" sampleFilesSt).2.files = none ∧
    "data/f1_a.txt" ∉ (delete_file "f1" sampleFilesSt).2.disk ∧
    delete_goal "zz" sampleGoals = (Status.notFound404, sampleGoals) ∧
    dlookup "g1" (delete_goal "g1" sampleGoals).2 = none := by
  refine ⟨?_, ?_, ?_, ?_, ?_⟩
  · exact (delete_endpoints_spec "zz" "zz" sampleFilesSt sampleGoals).1 rfl
  · exact ((delete_endpoints_spec "f1" "zz" sampleFilesSt sampleGoals).2.1
      [("filename", JVal.str "a.txt"), ("path", JVal.str "data/f1_a.txt")]
      "data/f1_a.txt" rfl rfl (by decide)).2.1
  · exact ((delete_endpoints_spec "f1" "zz" sampleFilesSt sampleGoals).2.1
      [("filename", JVal.str "a.txt"), ("path", JVal.str "data/f1_a.txt")]
      "data/f1_a.txt" rfl rfl (by decide)).2.2 (by decide) (by decide)
  · exact (delete_endpoints_spec "zz" "zz" sampleFilesSt sampleGoals).2.2.1 rfl
  · exact ((delete_endpoints_spec "zz" "g1" sampleFilesSt sampleGoals).2.2.2
      [("title", JVal.str "T")] rfl (by decide)).2

/-- Witness for C8 at a concrete store. -/
theorem start_research_spec_witness :
    dlookup "p1" [("p1", projectRec "p1" "Mars" "" "t0")] =
      some (projectRec "p1" "Mars" "" "t0") ∧
    ∃ proj2,
      (start_research "t1" "p1" [("p1", projectRec "p1" "Mars" "" "t0")]).2 =
        dinsert "p1" proj2 [("p1", projectRec "p1" "Mars" "" "t0")] ∧
      dlookup "status" proj2 = some (JVal.str "researching") := by
  refine ⟨rfl, ?_⟩
  obtain ⟨proj2, h1, h2, -⟩ :=
    (start_research_spec "t1" "p1" [("p1", projectRec "p1" "Mars" "" "t0")]).2
      (projectRec "p1" "Mars" "" "t0") rfl
  exact ⟨proj2, h1, h2⟩

theorem foldl_dinsert_fresh (l : List (String × Rec)) (d : Store)
    (hfresh : ∀ e ∈ l, dlookup e.1 d = none)
    (hnd : (l.map Prod.fst).Nodup) :
    l.foldl (fun acc e => dinsert e.1 e.2 acc) d = d ++ l := by
  induction l generalizing d with
  | nil => simp
  | cons e l ih =>
    obtain ⟨k, v⟩ := e
    simp only [List.map_cons, List.nodup_cons] at hnd
    have h1 : dlookup k d = none := hfresh (k, v) (List.mem_cons_self _ _)
    have h2 : ∀ e ∈ l, dlookup e.1 (d ++ [(k, v)]) = none := by
      intro e he
      rw [dlookup_append, hfresh e (List.mem_cons_of_mem _ he)]
      have hk : ¬ k = e.1 := by
        intro hkk
        exact hnd.1 (by rw [hkk]; exact List.mem_map.mpr ⟨e, he, rfl⟩)
      simp [dlookup, hk]
    calc ((k, v) :: l).foldl (fun acc e => dinsert e.1 e.2 acc) d
        = l.foldl (fun acc e => dinsert e.1 e.2 acc) (dinsert k v d) := by simp
      _ = l.foldl (fun acc e => dinsert e.1 e.2 acc) (d ++ [(k, v)]) := by
            rw [dinsert_of_not_mem k v d h1]
      _ = (d ++ [(k, v)]) ++ l := ih (d ++ [(k, v)]) h2 hnd.2
      _ = d ++ ((k, v) :: l) := by simp

theorem optionMap_length {α β : Type} (f : α → Option β) (l : List α)
    (out : List β) (h : optionMap f l = some out) : out.length = l.length := by
  induction l generalizing out with
  | nil =>
    simp [optionMap] at h
    simp [← h]
  | cons a l ih =>
    cases hfa : f a with
    | none => simp [optionMap, hfa] at h
    | some b =>
      cases hol : optionMap f l with
      | none => simp [optionMap, hfa, hol] at h
      | some bs =>
        simp only [optionMap, hfa, hol, Option.some.injEq] at h
        rw [← h]
        simp [ih bs hol]

theorem optionMap_mem {α β : Type} (f : α → Option β) (l : List α)
    (out : List β) (h : optionMap f l = some out) :
    ∀ b ∈ out, ∃ a ∈ l, f a = some b := by
  induction l generalizing out with
  | nil =>
    simp [optionMap] at h
    simp [h]
  | cons a l ih =>
    cases hfa : f a with
    | none => simp [optionMap, hfa] at h
    | some b0 =>
      cases hol : optionMap f l with
      | none => simp [optionMap, hfa, hol] at h
      | some bs =>
        simp only [optionMap, hfa, hol, Option.some.injEq] at h
        intro b hb
        rw [← h] at hb
        rcases List.mem_cons.mp hb with hb | hb
        · exact ⟨a, List.mem_cons_self _ _, by rw [hfa, hb]⟩
        · obtain ⟨a2, ha2, hfa2⟩ := ih bs hol b hb
          exact ⟨a2, List.mem_cons_of_mem _ ha2, hfa2⟩

theorem enrich_spec (goals insights files : Store) (p r : Rec)
    (h : enrich goals insights files p = some r) :
    ∃ pid, dlookup "id" p = some pid ∧
      dlookup "id" r = some pid ∧
      dlookup "documents_count" r = some (JVal.num (countFor pid files)) ∧
      dlookup "goals_count" r = some (JVal.num (countFor pid goals)) ∧
      dlookup "insights_count" r = some (JVal.num (countFor pid insights)) := by
  cases hid : dlookup "id" p with
  | none => simp [enrich, hid] at h
  | some pid =>
    simp only [enrich, hid, Option.some.injEq] at h
    refine ⟨pid, rfl, ?_, ?_, ?_, ?_⟩
    · rw [← h, dlookup_dinsert, if_neg (by decide), dlookup_dinsert,
        if_neg (by decide), dlookup_dinsert, if_neg (by decide),
        dlookup_dinsert, if_neg (by decide)]
      exact hid
    · rw [← h, dlookup_dinsert, if_neg (by decide), dlookup_dinsert,
        if_neg (by decide), dlookup_dinsert, if_neg (by decide),
        dlookup_dinsert, if_pos rfl]
    · rw [← h, dlookup_dinsert, if_neg (by decide), dlookup_dinsert,
        if_neg (by decide), dlookup_dinsert, if_pos rfl]
    · rw [← h, dlookup_dinsert, if_neg (by decide), dlookup_dinsert,
        if_pos rfl]

/-- C5: `GET /api/projects` returns one record per stored project, and
each returned record's documents_count, goals_count and insights_count
equal the number of file, goal and insight records whose project_id
equals that project's id at read time — whatever counts the stored
record carried. -/
theorem get_projects_spec (projects goals insights files : Store)
    (out : List Rec)
    (h : get_projects projects goals insights files = some out) :
    out.length = projects.length ∧
    ∀ r ∈ out, ∃ pid, dlookup "id" r = some pid ∧
      dlookup "documents_count" r = some (JVal.num (countFor pid files)) ∧
      dlookup "goals_count" r = some (JVal.num (countFor pid goals)) ∧
      dlookup "insights_count" r = some (JVal.num (countFor pid insights)) := by
  constructor
  · have hl := optionMap_length _ _ _ h
    simpa using hl
  · intro r hr
    obtain ⟨p, _, hfp⟩ := optionMap_mem _ _ _ h r hr
    obtain ⟨pid, -, h1, h2, h3, h4⟩ := enrich_spec goals insights files p r hfp
    exact ⟨pid, h1, h2, h3, h4⟩

/-- Witness for C5: the stored goals_count of the project is 0, but the
listing reports the derived count 1 after a goal for that project exists. -/
theorem get_projects_spec_witness :
    get_projects [("p1", projectRec "p1" "M" "" "t0")]
      [("g1", [("project_id", JVal.str "p1"), ("title", JVal.str "T")])] [] [] =
      some [[("id", JVal.str "p1"), ("name", JVal.str "M"),
             ("description", JVal.str ""), ("status", JVal.str "setup"),
             ("created_at", JVal.str "t0"), ("updated_at", JVal.str "t0"),
             ("documents_count", JVal.num 0), ("goals_count", JVal.num 1),
             ("insights_count", JVal.num 0), ("research_progress", JVal.num 0)]] ∧
    ∀ r ∈ [[("id", JVal.str "p1"), ("name", JVal.str "M"),
            ("description", JVal.str ""), ("status", JVal.str "setup"),
            ("created_at", JVal.str "t0"), ("updated_at", JVal.str "t0"),
            ("documents_count", JVal.num 0), ("goals_count", JVal.num 1),
            ("insights_count", JVal.num 0), ("research_progress", JVal.num 0)]],
      ∃ pid, dlookup "id" r = some pid ∧
        dlookup "documents_count" r = some (JVal.num (countFor pid [])) ∧
        dlookup "goals_count" r = some (JVal.num (countFor pid
          [("g1", [("project_id", JVal.str "p1"), ("title", JVal.str "T")])])) ∧
        dlookup "insights_count" r = some (JVal.num (countFor pid [])) :=
  ⟨by decide,
   (get_projects_spec [("p1", projectRec "p1" "M" "" "t0")]
      [("g1", [("project_id", JVal.str "p1"), ("title", JVal.str "T")])] [] []
      [[("id", JVal.str "p1"), ("name", JVal.str "M"),
        ("description", JVal.str ""), ("status", JVal.str "setup"),
        ("created_at", JVal.str "t0"), ("updated_at", JVal.str "t0"),
        ("documents_count", JVal.num 0), ("goals_count", JVal.num 1),
        ("insights_count", JVal.num 0), ("research_progress", JVal.num 0)]]
      (by decide)).2⟩

/-- C1: `POST /api/insights/project/<id>/generate` appends exactly the
three fixed sample insight records — carrying the given project_id, types
finding/recommendation/question and the fixed confidence and relevance
scores — and bumps the project's research_progress by 25, capped at 100. -/
theorem generate_insights_spec (pid id1 id2 id3 now : String)
    (insights projects : Store) (proj : Rec) (p : ℚ)
    (h1 : dlookup id1 insights = none) (h2 : dlookup id2 insights = none)
    (h3 : dlookup id3 insights = none)
    (h12 : id1 ≠ id2) (h13 : id1 ≠ id3) (h23 : id2 ≠ id3)
    (hp : dlookup pid projects = some proj)
    (hq : progressVal proj = some p) :
    (generate_insights pid id1 id2 id3 now insights projects).2.1 =
      insights ++ sample_insights pid id1 id2 id3 now ∧
    (generate_insights pid id1 id2 id3 now insights projects).1 = Status.ok200 ∧
    (sample_insights pid id1 id2 id3 now).length = 3 ∧
    (sample_insights pid id1 id2 id3 now).map (fun e => dlookup "project_id" e.2) =
      [some (JVal.str pid), some (JVal.str pid), some (JVal.str pid)] ∧
    (sample_insights pid id1 id2 id3 now).map (fun e => dlookup "insight_type" e.2) =
      [some (JVal.str "finding"), some (JVal.str "recommendation"),
       some (JVal.str "question")] ∧
    (sample_insights pid id1 id2 id3 now).map (fun e => dlookup "confidence_score" e.2) =
      [some (JVal.num (85/100)), some (JVal.num (78/100)), some (JVal.num (65/100))] ∧
    (sample_insights pid id1 id2 id3 now).map (fun e => dlookup "relevance_score" e.2) =
      [some (JVal.num (92/100)), some (JVal.num (88/100)), some (JVal.num (75/100))] ∧
    ∃ proj2, dlookup pid (generate_insights pid id1 id2 id3 now insights projects).2.2 =
        some proj2 ∧
      dlookup "research_progress" proj2 = some (JVal.num (min 100 (p + 25))) ∧
      dlookup "updated_at" proj2 = some (JVal.str now) ∧
      (∀ k, k ≠ "research_progress" → k ≠ "updated_at" →
        dlookup k proj2 = dlookup k proj) ∧
      (∀ q, q ≠ pid →
        dlookup q (generate_insights pid id1 id2 id3 now insights projects).2.2 =
          dlookup q projects) := by
  have hfresh : ∀ e ∈ sample_insights pid id1 id2 id3 now, dlookup e.1 insights = none := by
    intro e he
    simp only [sample_insights, List.mem_cons, List.not_mem_nil, or_false] at he
    rcases he with he | he | he
    · rw [he]; exact h1
    · rw [he]; exact h2
    · rw [he]; exact h3
  have hnd : ((sample_insights pid id1 id2 id3 now).map Prod.fst).Nodup := by
    simp [sample_insights, List.nodup_cons, h12, h13, h23]
  have hfold := foldl_dinsert_fresh (sample_insights pid id1 id2 id3 now) insights hfresh hnd
  refine ⟨?_, ?_, rfl, rfl, rfl, rfl, rfl, ?_⟩
  · simp [generate_insights, hp, hq, hfold]
  · simp [generate_insights, hp, hq]
  · refine ⟨dinsert "updated_at" (JVal.str now)
      (dinsert "research_progress" (JVal.num (min 100 (p + 25))) proj), ?_, ?_, ?_, ?_, ?_⟩
    · simp [generate_insights, hp, hq]
      rw [dlookup_dinsert, if_pos rfl]
    · rw [dlookup_dinsert, if_neg (by decide), dlookup_dinsert, if_pos rfl]
    · rw [dlookup_dinsert, if_pos rfl]
    · intro k hk1 hk2
      rw [dlookup_dinsert, if_neg (fun he => hk2 he.symm),
        dlookup_dinsert, if_neg (fun he => hk1 he.symm)]
    · intro q hq2
      simp [generate_insights, hp, hq]
      rw [dlookup_dinsert, if_neg (fun he => hq2 he.symm)]

/-- Witness for C1 on a concrete project with research_progress 0. -/
theorem generate_insights_spec_witness :
    (generate_insights "p1" "a" "b" "c" "t1" []
       [("p1", projectRec "p1" "M" "" "t0")]).2.1 =
      [] ++ sample_insights "p1" "a" "b" "c" "t1" ∧
    (generate_insights "p1" "a" "b" "c" "t1" []
       [("p1", projectRec "p1" "M" "" "t0")]).1 = Status.ok200 :=
  ⟨(generate_insights_spec "p1" "a" "b" "c" "t1" []
      [("p1", projectRec "p1" "M" "" "t0")] (projectRec "p1" "M" "" "t0") 0
      rfl rfl rfl (by decide) (by decide) (by decide) rfl rfl).1,
   (generate_insights_spec "p1" "a" "b" "c" "t1" []
      [("p1", projectRec "p1" "M" "" "t0")] (projectRec "p1" "M" "" "t0") 0
      rfl rfl rfl (by decide) (by decide) (by decide) rfl rfl).2.1⟩

/-- C10: generating insights for a project_id absent from the projects
store still appends the three insight records carrying that orphaned
project_id, leaves the projects store untouched (the progress update is
silently skipped), and returns the same 200 success response — never 404. -/
theorem generate_insights_orphan_spec (pid id1 id2 id3 now : String)
    (insights projects : Store)
    (h1 : dlookup id1 insights = none) (h2 : dlookup id2 insights = none)
    (h3 : dlookup id3 insights = none)
    (h12 : id1 ≠ id2) (h13 : id1 ≠ id3) (h23 : id2 ≠ id3)
    (hp : dlookup pid projects = none) :
    generate_insights pid id1 id2 id3 now insights projects =
      (Status.ok200, insights ++ sample_insights pid id1 id2 id3 now, projects) ∧
    ∀ e ∈ sample_insights pid id1 id2 id3 now,
      dlookup "project_id" e.2 = some (JVal.str pid) := by
  have hfresh : ∀ e ∈ sample_insights pid id1 id2 id3 now, dlookup e.1 insights = none := by
    intro e he
    simp only [sample_insights, List.mem_cons, List.not_mem_nil, or_false] at he
    rcases he with he | he | he
    · rw [he]; exact h1
    · rw [he]; exact h2
    · rw [he]; exact h3
  have hnd : ((sample_insights pid id1 id2 id3 now).map Prod.fst).Nodup := by
    simp [sample_insights, List.nodup_cons, h12, h13, h23]
  have hfold := foldl_dinsert_fresh (sample_insights pid id1 id2 id3 now) insights hfresh hnd
  refine ⟨by simp [generate_insights, hp, hfold], ?_⟩
  intro e he
  simp only [sample_insights, List.mem_cons, List.not_mem_nil, or_false] at he
  rcases he with he | he | he <;> rw [he] <;> rfl

/-- Witness for C10: an unknown project_id still gets the three insights
and a 200, and the (empty) projects store is unchanged. -/
theorem generate_insights_orphan_witness :
    generate_insights "ghost" "a" "b" "c" "t1" [] [] =
      (Status.ok200, [] ++ sample_insights "ghost" "a" "b" "c" "t1", []) :=
  (generate_insights_orphan_spec "ghost" "a" "b" "c" "t1" [] []
    rfl rfl rfl (by decide) (by decide) (by decide) rfl).1

/-- C4: `POST /api/upload` rejects with 400 a missing file part, a missing
(or empty) project_id, an empty filename, or a filename whose extension is
not on the allow-list (".exe" is not); with an allowed extension the
metadata record is stored and appears in `GET /api/files` with
original_name equal to the submitted filename and project_id equal to the
submitted project_id. -/
theorem upload_file_spec (sanitize : String → String) (fileId now : String)
    (fsize : Nat) (ctype : Option String) (hasFilePart : Bool)
    (fname : String) (projectId : Option String) (st : FilesSt) :
    ((hasFilePart = false ∨ pyFalsyOptStr projectId = true ∨ fname = "" ∨
        allowed_file fname = false) →
      (upload_file sanitize fileId now fsize ctype hasFilePart fname projectId st).1 =
        Status.badRequest400) ∧
    allowed_file "payload.exe" = false ∧
    (∀ pid2, hasFilePart = true → projectId = some pid2 → pid2 ≠ "" →
      fname ≠ "" → allowed_file fname = true →
      (sanitize fname).data.contains '.' = true →
      dlookup fileId st.files = none →
      (upload_file sanitize fileId now fsize ctype hasFilePart fname projectId st).1 =
        Status.ok200 ∧
      ∃ r, r ∈ list_files
          (upload_file sanitize fileId now fsize ctype hasFilePart fname projectId st).2.files ∧
        dlookup "original_name" r = some (JVal.str fname) ∧
        dlookup "project_id" r = some (JVal.str pid2)) := by
  refine ⟨?_, by decide, ?_⟩
  · intro h
    unfold upload_file
    rcases h with h | h | h | h <;> split_ifs <;> simp_all
  · intro pid2 hf hpid hne hfn hal hdot hfresh
    have hpf : pyFalsyOptStr projectId = false := by
      rw [hpid]
      show (pid2 == "") = false
      exact beq_eq_false_iff_ne.mpr hne
    have hru : upload_file sanitize fileId now fsize ctype hasFilePart fname projectId st =
        (Status.ok200,
         ⟨dinsert fileId (fileRecOf sanitize fileId now fsize ctype fname projectId) st.files,
          ("data/" ++ fileId ++ "_" ++ sanitize fname) :: st.disk⟩) := by
      unfold upload_file
      simp [hf, hpf, hfn, hal, hdot]
      simpa using hdot
    refine ⟨by rw [hru], ?_⟩
    refine ⟨fileRecOf sanitize fileId now fsize ctype fname projectId, ?_, rfl, ?_⟩
    · rw [hru]
      show fileRecOf sanitize fileId now fsize ctype fname projectId ∈
        list_files (dinsert fileId (fileRecOf sanitize fileId now fsize ctype fname projectId) st.files)
      rw [dinsert_of_not_mem _ _ _ hfresh]
      simp [list_files]
    · show dlookup "project_id" (fileRecOf sanitize fileId now fsize ctype fname projectId) =
        some (JVal.str pid2)
      rw [hpid]
      rfl

/-- Witness for C4: a missing file part is rejected; `a.txt` with a
project_id is stored and listed with the submitted name and project. -/
theorem upload_file_spec_witness :
    (upload_file (fun s => s) "f9" "t" 3 none false "a.txt" (some "p1")
      sampleFilesSt).1 = Status.badRequest400 ∧
    (upload_file (fun s => s) "f9" "t" 3 none true "a.txt" (some "p1")
      sampleFilesSt).1 = Status.ok200 ∧
    ∃ r, r ∈ list_files (upload_file (fun s => s) "f9" "t" 3 none true "a.txt"
        (some "p1") sampleFilesSt).2.files ∧
      dlookup "original_name" r = some (JVal.str "a.txt") ∧
      dlookup "project_id" r = some (JVal.str "p1") := by
  refine ⟨?_, ?_, ?_⟩
  · exact (upload_file_spec (fun s => s) "f9" "t" 3 none false "a.txt"
      (some "p1") sampleFilesSt).1 (Or.inl rfl)
  · exact ((upload_file_spec (fun s => s) "f9" "t" 3 none true "a.txt"
      (some "p1") sampleFilesSt).2.2 "p1" rfl rfl (by decide) (by decide)
      (by decide) (by decide) rfl).1
  · exact ((upload_file_spec (fun s => s) "f9" "t" 3 none true "a.txt"
      (some "p1") sampleFilesSt).2.2 "p1" rfl rfl (by decide) (by decide)
      (by decide) (by decide) rfl).2

/-- C9: every 400 returned by `POST /api/upload` happens before any state
change: the metadata store and the disk are exactly as before the request. -/
theorem upload_file_frame_spec (sanitize : String → String) (fileId now : String)
    (fsize : Nat) (ctype : Option String) (hasFilePart : Bool)
    (fname : String) (projectId : Option String) (st : FilesSt)
    (h : (upload_file sanitize fileId now fsize ctype hasFilePart fname projectId st).1 =
      Status.badRequest400) :
    (upload_file sanitize fileId now fsize ctype hasFilePart fname projectId st).2 = st := by
  unfold upload_file at h ⊢
  split_ifs at h ⊢ <;> simp_all

/-- Witness for C9: a rejected upload (missing file part) leaves the state
untouched. -/
theorem upload_file_frame_witness :
    (upload_file (fun s => s) "f9" "t" 3 none false "a.txt" none
      sampleFilesSt).1 = Status.badRequest400 ∧
    (upload_file (fun s => s) "f9" "t" 3 none false "a.txt" none
      sampleFilesSt).2 = sampleFilesSt :=
  ⟨rfl, upload_file_frame_spec (fun s => s) "f9" "t" 3 none false "a.txt"
    none sampleFilesSt rfl⟩

end Calex
